import Mathlib

/-! Shallow embedding of the rac-rs protocol engine: src/shared.rs,
src/client.rs (synchronous stream binding), src/async_client.rs
(asynchronous stream binding) and src/wrac.rs (WebSocket binding).

Transport effects are modelled by an explicit oracle: a list of events
giving the outcome the environment supplies for each successive
read/write the code performs.  Byte buffers are lists of naturals;
text decoding and encoding are modelled for the ASCII fragment the
protocol actually transmits (opcodes, decimal digits, newlines, null
padding). -/

/-- Error type, modelling ClientError from src/shared.rs.  The io::Error
payloads of ConnectionError, StreamWriteError and StreamReadError are not
modelled; the String payloads of the other constructors are kept. -/
inductive ClientError where
  | ConnectionError
  | StreamWriteError
  | StreamReadError
  | WsReadError (msg : String)
  | WsSendError (msg : String)
  | ParseError (msg : String)
  | ServerClosedConnection
  | UserDoesNotExist
  | IncorrectPassword
  | UnexpectedResponse (s : String)
  | UsernameAlreadyTaken
  | NoPassword
  | TlsInitializationError
  | NoConnectionWRAC
  deriving Repr, DecidableEq

/-- Result of one engine operation.  ok and err mirror Rust Result; crash
marks a runtime abort that is reachable in the source: the unguarded usize
subtraction sizing the delta buffer, and the out-of-range slice performed
after null removal in the async size paths. -/
inductive Outcome (α : Type) where
  | ok (a : α)
  | err (e : ClientError)
  | crash
  deriving Repr, DecidableEq

/-- Credentials from src/shared.rs. -/
structure Credentials where
  username : String
  password : Option String
  deriving Repr, DecidableEq

/-- Bytes of an ASCII string, modelling str::as_bytes for the ASCII texts the
engine writes (UTF-8 agrees with the code points there). -/
def asciiBytes (s : String) : List Nat :=
  s.data.map Char.toNat

/-- String decoded from bytes, modelling String::from_utf8_lossy for buffers
of ASCII bytes (below 0x80), which covers all protocol text including null
padding. -/
def asciiOfBytes (bs : List Nat) : String :=
  String.mk (bs.map Char.ofNat)

/-- Null-byte removal, modelling Client::remove_nulls in src/async_client.rs:
data.retain(|x| x != 0). -/
def stripNulls (bs : List Nat) : List Nat :=
  bs.filter (fun b => b ≠ 0)

/-- Numeric value of a list of decimal digit characters. -/
def digitsToNat (cs : List Char) : Nat :=
  cs.foldl (fun acc c => 10 * acc + (c.toNat - 48)) 0

/-- Parsing of a usize, modelling str::parse::<usize> from Rust: an optional
leading plus sign, then one or more ASCII digits and nothing else.  Overflow
of the 64-bit range is not modelled (no claim involves a 20-digit size). -/
def parseUsize (s : String) : Option Nat :=
  let cs := match s.data with
    | '+' :: rest => rest
    | cs => cs
  if cs ≠ [] ∧ cs.all (fun c => c.isDigit) then some (digitsToNat cs) else none

/-- Split a character list at every newline character. -/
def splitNl : List Char → List (List Char)
  | [] => [[]]
  | c :: cs =>
    if c = '\n' then [] :: splitNl cs
    else
      match splitNl cs with
      | [] => [[c]]
      | l :: ls => (c :: l) :: ls

/-- Drop one trailing carriage return, as str::lines does on each line. -/
def chopCR (l : List Char) : List Char :=
  if l.getLast? = some '\r' then l.dropLast else l

/-- Line splitting followed by the empty-line filter, modelling the pipeline
response.lines().filter(|l| !l.is_empty()) used by every message-blob path.
A trailing newline only contributes an empty segment, which the filter
removes, so the model agrees with str::lines there. -/
def linesNonEmpty (s : String) : List String :=
  ((splitNl s.data).map (fun l => String.mk (chopCR l))).filter (fun t => t ≠ "")

/-- Transport oracle events for the stream bindings: the outcome of each
successive write_all, read, or read_exact the code performs. -/
inductive Ev where
  | wOk
  | wErr
  | rOk (data : List Nat)
  | rErr
  | reOk (data : List Nat)
  | reErr
  deriving Repr, DecidableEq

/-- Trace of transport interactions an operation performed, in order. -/
inductive Call where
  | connect
  | write (data : List Nat)
  | read (cap : Nat)
  | readExact (len : Nat)
  | wsSend (data : List Nat)
  | wsRecv
  deriving Repr, DecidableEq

/-- Outcome of one stream write_all: the remaining oracle, or none for a
write failure (a missing or mismatched event is a failed transport). -/
def stepW : List Ev → Option (List Ev)
  | Ev.wOk :: es => some es
  | _ => none

/-- Outcome of one stream read with buffer capacity cap: the bytes obtained
(at most cap) and the remaining oracle, or none for a read failure. -/
def stepR (cap : Nat) : List Ev → Option (List Nat × List Ev)
  | Ev.rOk d :: es => some (d.take cap, es)
  | _ => none

/-- Outcome of one read_exact of len bytes.  With an empty buffer read_exact
does nothing, so no event is consumed; otherwise the oracle must supply
exactly len bytes. -/
def stepRE (len : Nat) (es : List Ev) : Option (List Nat × List Ev) :=
  match len, es with
  | 0, es => some ([], es)
  | Nat.succ k, Ev.reOk d :: es => if d.length = Nat.succ k then some (d, es) else none
  | Nat.succ _, _ => none

/-- Session state of the stream clients (identical fields in src/client.rs
and src/async_client.rs). -/
structure Client where
  current_messages_size : Nat
  address : String
  username : String
  password : Option String
  use_tls : Bool
  deriving Repr, DecidableEq

/-- Client::new from src/client.rs. -/
def Client.new (address : String) (credentials : Credentials) (use_tls : Bool) : Client :=
  { current_messages_size := 0
    address := address
    username := credentials.username
    password := credentials.password
    use_tls := use_tls }

/-- Client::reset from src/client.rs: clears cursor, address, username and
password; the TLS flag is not touched. -/
def Client.reset (c : Client) : Client :=
  { current_messages_size := 0
    address := ""
    username := ""
    password := none
    use_tls := c.use_tls }

/-- Client::register_user from src/client.rs.  The stream is obtained first;
only then is the password checked.  With a password it writes
0x03 username newline password, reads up to 2 bytes, and maps the status:
zero bytes read is success, 0x01 is UsernameAlreadyTaken, anything else is
UnexpectedResponse over the bytes read.  The trace records the transport
interactions performed. -/
def Client.register_user (c : Client) (connectOk : Bool) (es : List Ev) :
    Outcome Unit × Client × List Call :=
  let tr := [Call.connect]
  if !connectOk then (Outcome.err ClientError.ConnectionError, c, tr)
  else
    match c.password with
    | some pw =>
      let frame := asciiBytes ("\x03" ++ c.username ++ "\n" ++ pw)
      let tr := tr ++ [Call.write frame]
      match stepW es with
      | none => (Outcome.err ClientError.StreamWriteError, c, tr)
      | some es =>
        let tr := tr ++ [Call.read 2]
        match stepR 2 es with
        | none => (Outcome.err ClientError.StreamReadError, c, tr)
        | some (buf, _) =>
          if buf.length = 0 then (Outcome.ok (), c, tr)
          else
            match buf.head? with
            | some 1 => (Outcome.err ClientError.UsernameAlreadyTaken, c, tr)
            | _ => (Outcome.err (ClientError.UnexpectedResponse (asciiOfBytes buf)), c, tr)
    | none => (Outcome.err ClientError.NoPassword, c, tr)

/-- Client::fetch_messages_size from src/client.rs: writes 0x00, reads up to
1024 bytes, decodes the bytes read and parses them as usize.  Note: this
binding performs no zero-length-read check and no null removal before the
decode or the parse. -/
def Client.fetch_messages_size (c : Client) (connectOk : Bool) (es : List Ev) :
    Outcome Unit × Client :=
  if !connectOk then (Outcome.err ClientError.ConnectionError, c)
  else
    match stepW es with
    | none => (Outcome.err ClientError.StreamWriteError, c)
    | some es =>
      match stepR 1024 es with
      | none => (Outcome.err ClientError.StreamReadError, c)
      | some (buf, _) =>
        let response := asciiOfBytes buf
        match parseUsize response with
        | some size => (Outcome.ok (), { c with current_messages_size := size })
        | none => (Outcome.err (ClientError.ParseError "Failed to parse messages size"), c)

/-- Client::fetch_all_messages from src/client.rs: writes 0x00, reads and
parses the size (no null removal, no zero-read check), assigns the cursor
immediately, then writes 0x01 and read_exacts cursor-many bytes, splitting
the decoded blob into non-empty lines.  The cursor assignment precedes the
second write and the bulk read. -/
def Client.fetch_all_messages (c : Client) (connectOk : Bool) (es : List Ev) :
    Outcome (List String) × Client :=
  if !connectOk then (Outcome.err ClientError.ConnectionError, c)
  else
    match stepW es with
    | none => (Outcome.err ClientError.StreamWriteError, c)
    | some es =>
      match stepR 1024 es with
      | none => (Outcome.err ClientError.StreamReadError, c)
      | some (head, es) =>
        match parseUsize (asciiOfBytes head) with
        | none => (Outcome.err (ClientError.ParseError "Failed to parse messages size"), c)
        | some size =>
          let c := { c with current_messages_size := size }
          match stepW es with
          | none => (Outcome.err ClientError.StreamWriteError, c)
          | some es =>
            match stepRE c.current_messages_size es with
            | none => (Outcome.err ClientError.StreamReadError, c)
            | some (buffer, _) =>
              (Outcome.ok (linesNonEmpty (asciiOfBytes buffer)), c)

/-- Client::fetch_new_messages from src/client.rs: writes 0x00, reads and
parses the new total (no null removal, no zero-read check), writes 0x02
followed by the stored cursor as decimal text, then sizes the delta buffer
by the usize subtraction size - cursor, which is unguarded: when the
reported total is below the cursor the subtraction underflows, modelled by
crash.  Only after the delta bytes are read is the cursor set to the new
total.  The trace records the transport interactions performed. -/
def Client.fetch_new_messages (c : Client) (connectOk : Bool) (es : List Ev) :
    Outcome (List String) × Client × List Call :=
  let tr := [Call.connect]
  if !connectOk then (Outcome.err ClientError.ConnectionError, c, tr)
  else
    let tr := tr ++ [Call.write [0]]
    match stepW es with
    | none => (Outcome.err ClientError.StreamWriteError, c, tr)
    | some es =>
      let tr := tr ++ [Call.read 1024]
      match stepR 1024 es with
      | none => (Outcome.err ClientError.StreamReadError, c, tr)
      | some (head, es) =>
        match parseUsize (asciiOfBytes head) with
        | none => (Outcome.err (ClientError.ParseError "Failed to parse messages size"), c, tr)
        | some size =>
          let frame := asciiBytes ("\x02" ++ toString c.current_messages_size)
          let tr := tr ++ [Call.write frame]
          match stepW es with
          | none => (Outcome.err ClientError.StreamWriteError, c, tr)
          | some es =>
            if size < c.current_messages_size then (Outcome.crash, c, tr)
            else
              let tr := tr ++ [Call.readExact (size - c.current_messages_size)]
              match stepRE (size - c.current_messages_size) es with
              | none => (Outcome.err ClientError.StreamReadError, c, tr)
              | some (buffer, _) =>
                (Outcome.ok (linesNonEmpty (asciiOfBytes buffer)),
                 { c with current_messages_size := size }, tr)

/-- Client::send_custom_message from src/client.rs: with a password it writes
0x02 username newline password newline message and reads up to 2 status
bytes (zero bytes read is success, 0x01 is UserDoesNotExist, 0x02 is
IncorrectPassword, anything else UnexpectedResponse); without a password it
writes 0x01 message and returns without reading. -/
def Client.send_custom_message (c : Client) (message : String) (connectOk : Bool)
    (es : List Ev) : Outcome Unit × Client :=
  if !connectOk then (Outcome.err ClientError.ConnectionError, c)
  else
    match c.password with
    | some pw =>
      let _frame := asciiBytes ("\x02" ++ c.username ++ "\n" ++ pw ++ "\n" ++ message)
      match stepW es with
      | none => (Outcome.err ClientError.StreamWriteError, c)
      | some es =>
        match stepR 2 es with
        | none => (Outcome.err ClientError.StreamReadError, c)
        | some (buf, _) =>
          if buf.length = 0 then (Outcome.ok (), c)
          else
            match buf.head? with
            | some 1 => (Outcome.err ClientError.UserDoesNotExist, c)
            | some 2 => (Outcome.err ClientError.IncorrectPassword, c)
            | _ => (Outcome.err (ClientError.UnexpectedResponse (asciiOfBytes buf)), c)
    | none =>
      match stepW es with
      | none => (Outcome.err ClientError.StreamWriteError, c)
      | some _ => (Outcome.ok (), c)

/-- Client::fetch_messages_size from src/async_client.rs.  The async binding
differs from the sync one: a zero-length read returns ServerClosedConnection,
and remove_nulls runs on the full 1024-byte buffer before the decode.  After
the retain, the buffer holds exactly the non-null bytes read (the zero
padding is also removed), yet the code still slices the first n bytes, so
whenever a null byte was among the bytes read the slice is out of range and
the call aborts, modelled by crash; otherwise the stripped bytes equal the
bytes read and are decoded and parsed. -/
def Async.fetch_messages_size (c : Client) (connectOk : Bool) (es : List Ev) :
    Outcome Unit × Client :=
  if !connectOk then (Outcome.err ClientError.ConnectionError, c)
  else
    match stepW es with
    | none => (Outcome.err ClientError.StreamWriteError, c)
    | some es =>
      match stepR 1024 es with
      | none => (Outcome.err ClientError.StreamReadError, c)
      | some (buf, _) =>
        if buf.length = 0 then (Outcome.err ClientError.ServerClosedConnection, c)
        else if (stripNulls buf).length < buf.length then (Outcome.crash, c)
        else
          let response := asciiOfBytes (stripNulls buf)
          match parseUsize response with
          | some size => (Outcome.ok (), { c with current_messages_size := size })
          | none => (Outcome.err (ClientError.ParseError "Failed to parse messages size"), c)

/-- Client::fetch_all_messages from src/async_client.rs.  The size head is
handled as in the async fetch_messages_size (zero read is
ServerClosedConnection; null removal before the slice of the original
length, which aborts when a null was read).  The cursor is assigned right
after the parse, before the second write and the bulk read.  The bulk
buffer has its nulls removed before decoding and line splitting. -/
def Async.fetch_all_messages (c : Client) (connectOk : Bool) (es : List Ev) :
    Outcome (List String) × Client :=
  if !connectOk then (Outcome.err ClientError.ConnectionError, c)
  else
    match stepW es with
    | none => (Outcome.err ClientError.StreamWriteError, c)
    | some es =>
      match stepR 1024 es with
      | none => (Outcome.err ClientError.StreamReadError, c)
      | some (head, es) =>
        if head.length = 0 then (Outcome.err ClientError.ServerClosedConnection, c)
        else if (stripNulls head).length < head.length then (Outcome.crash, c)
        else
          match parseUsize (asciiOfBytes (stripNulls head)) with
          | none => (Outcome.err (ClientError.ParseError "Failed to parse messages size"), c)
          | some size =>
            let c := { c with current_messages_size := size }
            match stepW es with
            | none => (Outcome.err ClientError.StreamWriteError, c)
            | some es =>
              match stepRE c.current_messages_size es with
              | none => (Outcome.err ClientError.StreamReadError, c)
              | some (buffer, _) =>
                (Outcome.ok (linesNonEmpty (asciiOfBytes (stripNulls buffer))), c)

/-- Client::fetch_new_messages from src/async_client.rs.  Size head handled
as in the async fetch_messages_size.  The delta buffer is sized by the
unguarded usize subtraction size - cursor (crash models the underflow), and
in this binding the bulk bytes are decoded into the response BEFORE
remove_nulls runs on the buffer, so null bytes survive into the line
splitting.  The cursor is set to the new total at the end. -/
def Async.fetch_new_messages (c : Client) (connectOk : Bool) (es : List Ev) :
    Outcome (List String) × Client :=
  if !connectOk then (Outcome.err ClientError.ConnectionError, c)
  else
    match stepW es with
    | none => (Outcome.err ClientError.StreamWriteError, c)
    | some es =>
      match stepR 1024 es with
      | none => (Outcome.err ClientError.StreamReadError, c)
      | some (head, es) =>
        if head.length = 0 then (Outcome.err ClientError.ServerClosedConnection, c)
        else if (stripNulls head).length < head.length then (Outcome.crash, c)
        else
          match parseUsize (asciiOfBytes (stripNulls head)) with
          | none => (Outcome.err (ClientError.ParseError "Failed to parse messages size"), c)
          | some size =>
            match stepW es with
            | none => (Outcome.err ClientError.StreamWriteError, c)
            | some es =>
              if size < c.current_messages_size then (Outcome.crash, c)
              else
                match stepRE (size - c.current_messages_size) es with
                | none => (Outcome.err ClientError.StreamReadError, c)
                | some (buffer, _) =>
                  (Outcome.ok (linesNonEmpty (asciiOfBytes buffer)),
                   { c with current_messages_size := size })

/-- WebSocket oracle events for the message binding: outcome of each
successive ws.send and ws.read the code performs. -/
inductive WEv where
  | sendOk
  | sendErr (msg : String)
  | recvBinary (data : List Nat)
  | recvText (s : String)
  | recvOther
  | recvErr (msg : String)
  deriving Repr, DecidableEq

/-- A successfully received WebSocket message. -/
inductive WRecv where
  | binary (data : List Nat)
  | text (s : String)
  | other
  deriving Repr, DecidableEq

/-- Outcome of one ws.send: the remaining oracle, or the error message (a
missing or mismatched event is a failed transport). -/
def stepSend : List WEv → Except String (List WEv)
  | WEv.sendOk :: es => Except.ok es
  | WEv.sendErr m :: _ => Except.error m
  | _ => Except.error "connection closed"

/-- Outcome of one ws.read: the message and remaining oracle, or the error
message. -/
def stepRecv : List WEv → Except String (WRecv × List WEv)
  | WEv.recvBinary d :: es => Except.ok (WRecv.binary d, es)
  | WEv.recvText s :: es => Except.ok (WRecv.text s, es)
  | WEv.recvOther :: es => Except.ok (WRecv.other, es)
  | WEv.recvErr m :: _ => Except.error m
  | _ => Except.error "connection closed"

/-- Text extracted from a received WebSocket message, modelling the match
that turns Text into its string, Binary into its lossy decode, and anything
else into the empty string (src/wrac.rs, all three fetch paths). -/
def wrecvText : WRecv → String
  | WRecv.text t => t
  | WRecv.binary b => asciiOfBytes b
  | WRecv.other => ""

/-- Leading and trailing whitespace removal, modelling str::trim for the
ASCII texts involved (a null byte is not whitespace and is not trimmed). -/
def rustTrim (s : String) : String :=
  String.mk (((s.data.dropWhile Char.isWhitespace).reverse.dropWhile Char.isWhitespace).reverse)

/-- Two-digit lowercase hex rendering of a byte, modelling format 0x{:02x}
as used for unexpected status codes in src/wrac.rs. -/
def hexByte (n : Nat) : String :=
  let dig := fun (k : Nat) => if k < 10 then Char.ofNat (48 + k) else Char.ofNat (87 + k)
  String.mk [dig (n / 16 % 16), dig (n % 16)]

/-- Session state of the WebSocket client (src/wrac.rs).  The stored
connection handle is modelled by the flag ws_connected (Some versus None of
ws_connection). -/
structure WClient where
  current_messages_size : Nat
  address : String
  use_tls : Bool
  username : String
  password : Option String
  ws_connected : Bool
  deriving Repr, DecidableEq

/-- WClient::new from src/wrac.rs: no stored connection, cursor 0. -/
def WClient.new (address : String) (credentials : Credentials) (use_tls : Bool) : WClient :=
  { current_messages_size := 0
    address := address
    use_tls := use_tls
    username := credentials.username
    password := credentials.password
    ws_connected := false }

/-- WClient::prepare from src/wrac.rs: establishes and stores the persistent
connection (or fails with the TLS-initialization error get_ws maps all
handshake failures to). -/
def WClient.prepare (w : WClient) (connectOk : Bool) : Outcome Unit × WClient :=
  if connectOk then (Outcome.ok (), { w with ws_connected := true })
  else (Outcome.err ClientError.TlsInitializationError, w)

/-- WClient::register_user from src/wrac.rs.  It does NOT use the stored
connection: it opens its own fresh WebSocket via get_ws before checking the
password.  With a password it sends 0x03 username newline password and then
pattern-matches the reply: only Ok(Binary(buf)) is inspected (first byte
0x01 is UsernameAlreadyTaken, any other first byte UnexpectedResponse over
its hex rendering, empty buffer success); a read error or a non-binary
message falls through to success. -/
def WClient.register_user (w : WClient) (connectOk : Bool) (es : List WEv) :
    Outcome Unit × WClient × List Call :=
  let tr := [Call.connect]
  if !connectOk then (Outcome.err ClientError.TlsInitializationError, w, tr)
  else
    match w.password with
    | some pw =>
      let payload := asciiBytes ("\x03" ++ w.username ++ "\n" ++ pw)
      let tr := tr ++ [Call.wsSend payload]
      match stepSend es with
      | Except.error m => (Outcome.err (ClientError.WsSendError m), w, tr)
      | Except.ok es =>
        let tr := tr ++ [Call.wsRecv]
        match stepRecv es with
        | Except.ok (WRecv.binary buf, _) =>
          match buf.head? with
          | some 1 => (Outcome.err ClientError.UsernameAlreadyTaken, w, tr)
          | some code =>
            (Outcome.err (ClientError.UnexpectedResponse ("0x" ++ hexByte code)), w, tr)
          | none => (Outcome.ok (), w, tr)
        | _ => (Outcome.ok (), w, tr)
    | none => (Outcome.err ClientError.NoPassword, w, tr)

/-- WClient::fetch_messages_size from src/wrac.rs: fails with
NoConnectionWRAC when no connection is stored; otherwise sends 0x00 on the
stored connection, reads one message, extracts its text, trims it and
parses it as usize, storing the result in the cursor.  Returns the
remaining oracle so the multi-step operations can continue on the same
connection, and the trace of interactions. -/
def WClient.fetch_messages_size (w : WClient) (es : List WEv) :
    Outcome Unit × WClient × List WEv × List Call :=
  if !w.ws_connected then (Outcome.err ClientError.NoConnectionWRAC, w, es, [])
  else
    let tr := [Call.wsSend [0]]
    match stepSend es with
    | Except.error m => (Outcome.err (ClientError.WsSendError m), w, es, tr)
    | Except.ok es =>
      let tr := tr ++ [Call.wsRecv]
      match stepRecv es with
      | Except.error m => (Outcome.err (ClientError.WsReadError m), w, es, tr)
      | Except.ok (msg, es) =>
        let txt := wrecvText msg
        match parseUsize (rustTrim txt) with
        | some n => (Outcome.ok (), { w with current_messages_size := n }, es, tr)
        | none =>
          (Outcome.err (ClientError.ParseError "Failed to parse messages size"), w, es, tr)

/-- WClient::fetch_all_messages from src/wrac.rs: runs fetch_messages_size
on the stored connection (which already updates the cursor), then sends
0x01 and reads one message, splitting its text into non-empty lines. -/
def WClient.fetch_all_messages (w : WClient) (es : List WEv) :
    Outcome (List String) × WClient :=
  match WClient.fetch_messages_size w es with
  | (Outcome.err e, w, _, _) => (Outcome.err e, w)
  | (Outcome.crash, w, _, _) => (Outcome.crash, w)
  | (Outcome.ok _, w, es, _) =>
    match stepSend es with
    | Except.error m => (Outcome.err (ClientError.WsSendError m), w)
    | Except.ok es =>
      match stepRecv es with
      | Except.error m => (Outcome.err (ClientError.WsReadError m), w)
      | Except.ok (msg, _) => (Outcome.ok (linesNonEmpty (wrecvText msg)), w)

/-- WClient::fetch_new_messages from src/wrac.rs: saves the old cursor, runs
fetch_messages_size (which stores the NEW total in the cursor), returns the
empty list when no growth occurred, and otherwise sends the delta request
frame 0x00 0x02 followed by the decimal rendering of current_messages_size,
which at that point is already the new total, then reads one message and
splits it into non-empty lines.  The cursor is thus updated before the
delta exchange, and the frame carries the new total, not the old cursor. -/
def WClient.fetch_new_messages (w : WClient) (es : List WEv) :
    Outcome (List String) × WClient × List Call :=
  let old_size := w.current_messages_size
  match WClient.fetch_messages_size w es with
  | (Outcome.err e, w, _, tr) => (Outcome.err e, w, tr)
  | (Outcome.crash, w, _, tr) => (Outcome.crash, w, tr)
  | (Outcome.ok _, w, es, tr) =>
    let new_size := w.current_messages_size
    if old_size ≥ new_size then (Outcome.ok [], w, tr)
    else
      let frame := asciiBytes ("\x00\x02" ++ toString w.current_messages_size)
      let tr := tr ++ [Call.wsSend frame]
      match stepSend es with
      | Except.error m => (Outcome.err (ClientError.WsSendError m), w, tr)
      | Except.ok es =>
        let tr := tr ++ [Call.wsRecv]
        match stepRecv es with
        | Except.error m => (Outcome.err (ClientError.WsReadError m), w, tr)
        | Except.ok (msg, _) => (Outcome.ok (linesNonEmpty (wrecvText msg)), w, tr)

/-- WClient::send_custom_message from src/wrac.rs: fails with
NoConnectionWRAC when no connection is stored.  With a password it sends
0x02 username newline password newline message and pattern-matches the
reply exactly as register does (0x01 UserDoesNotExist, 0x02
IncorrectPassword, other first byte UnexpectedResponse, empty buffer or a
read error or a non-binary message all success); without a password it
sends 0x01 message and returns. -/
def WClient.send_custom_message (w : WClient) (message : String) (es : List WEv) :
    Outcome Unit × WClient :=
  if !w.ws_connected then (Outcome.err ClientError.NoConnectionWRAC, w)
  else
    match w.password with
    | some pw =>
      let _payload := asciiBytes ("\x02" ++ w.username ++ "\n" ++ pw ++ "\n" ++ message)
      match stepSend es with
      | Except.error m => (Outcome.err (ClientError.WsSendError m), w)
      | Except.ok es =>
        match stepRecv es with
        | Except.ok (WRecv.binary buf, _) =>
          match buf.head? with
          | some 1 => (Outcome.err ClientError.UserDoesNotExist, w)
          | some 2 => (Outcome.err ClientError.IncorrectPassword, w)
          | some code =>
            (Outcome.err (ClientError.UnexpectedResponse ("0x" ++ hexByte code)), w)
          | none => (Outcome.ok (), w)
        | _ => (Outcome.ok (), w)
    | none =>
      match stepSend es with
      | Except.error m => (Outcome.err (ClientError.WsSendError m), w)
      | Except.ok _ => (Outcome.ok (), w)

/-- Sample client used by the concrete evaluations below. -/
def cSample : Client :=
  { current_messages_size := 0
    address := "127.0.0.1:42666"
    username := "u"
    password := some "p"
    use_tls := false }

/-- Sample WebSocket client with a stored connection and cursor 1. -/
def wSample : WClient :=
  { current_messages_size := 1
    address := "127.0.0.1:52666"
    use_tls := false
    username := "u"
    password := some "p"
    ws_connected := true }


/-- State preservation of the sync fetch_messages_size: the session is
returned unchanged unless the call succeeded. -/
theorem sync_fsize_state (c : Client) (ok : Bool) (es : List Ev) :
    (Client.fetch_messages_size c ok es).2 = c ∨
    (Client.fetch_messages_size c ok es).1 = Outcome.ok () := by
  unfold Client.fetch_messages_size
  repeat' (first | split | dsimp only)
  all_goals simp

/-- The sync register_user never modifies the session. -/
theorem sync_register_state (c : Client) (ok : Bool) (es : List Ev) :
    (Client.register_user c ok es).2.1 = c := by
  unfold Client.register_user
  repeat' (first | split | dsimp only)

/-- The sync send_custom_message never modifies the session. -/
theorem sync_send_state (c : Client) (m : String) (ok : Bool) (es : List Ev) :
    (Client.send_custom_message c m ok es).2 = c := by
  unfold Client.send_custom_message
  repeat' (first | split | dsimp only)

/-- State preservation of the sync fetch_new_messages: the session is
returned unchanged unless the call succeeded. -/
theorem sync_fnew_state (c : Client) (ok : Bool) (es : List Ev) :
    (Client.fetch_new_messages c ok es).2.1 = c ∨
    ∃ msgs, (Client.fetch_new_messages c ok es).1 = Outcome.ok msgs := by
  unfold Client.fetch_new_messages
  repeat' (first | split | dsimp only)
  all_goals first
    | exact Or.inl rfl
    | exact Or.inr ⟨_, rfl⟩

/-- The sync fetch_all_messages never modifies the identity fields of the
session, whatever the outcome (only the cursor can change). -/
theorem sync_fall_identity (c : Client) (ok : Bool) (es : List Ev) :
    (Client.fetch_all_messages c ok es).2.address = c.address ∧
    (Client.fetch_all_messages c ok es).2.username = c.username ∧
    (Client.fetch_all_messages c ok es).2.password = c.password ∧
    (Client.fetch_all_messages c ok es).2.use_tls = c.use_tls := by
  unfold Client.fetch_all_messages
  repeat' (first | split | dsimp only)
  all_goals exact ⟨rfl, rfl, rfl, rfl⟩

/-- State preservation of the async fetch_messages_size. -/
theorem async_fsize_state (c : Client) (ok : Bool) (es : List Ev) :
    (Async.fetch_messages_size c ok es).2 = c ∨
    (Async.fetch_messages_size c ok es).1 = Outcome.ok () := by
  unfold Async.fetch_messages_size
  repeat' (first | split | dsimp only)
  all_goals simp

/-- State preservation of the async fetch_new_messages. -/
theorem async_fnew_state (c : Client) (ok : Bool) (es : List Ev) :
    (Async.fetch_new_messages c ok es).2 = c ∨
    ∃ msgs, (Async.fetch_new_messages c ok es).1 = Outcome.ok msgs := by
  unfold Async.fetch_new_messages
  repeat' (first | split | dsimp only)
  all_goals first
    | exact Or.inl rfl
    | exact Or.inr ⟨_, rfl⟩

/-- The async fetch_all_messages never modifies the identity fields. -/
theorem async_fall_identity (c : Client) (ok : Bool) (es : List Ev) :
    (Async.fetch_all_messages c ok es).2.address = c.address ∧
    (Async.fetch_all_messages c ok es).2.username = c.username ∧
    (Async.fetch_all_messages c ok es).2.password = c.password ∧
    (Async.fetch_all_messages c ok es).2.use_tls = c.use_tls := by
  unfold Async.fetch_all_messages
  repeat' (first | split | dsimp only)
  all_goals exact ⟨rfl, rfl, rfl, rfl⟩

/-- State preservation of the WebSocket fetch_messages_size. -/
theorem wrac_fsize_state (w : WClient) (es : List WEv) :
    (WClient.fetch_messages_size w es).2.1 = w ∨
    (WClient.fetch_messages_size w es).1 = Outcome.ok () := by
  unfold WClient.fetch_messages_size
  repeat' (first | split | dsimp only)
  all_goals simp

/-- The WebSocket fetch_messages_size never modifies the identity fields. -/
theorem wrac_fsize_identity (w : WClient) (es : List WEv) :
    (WClient.fetch_messages_size w es).2.1.address = w.address ∧
    (WClient.fetch_messages_size w es).2.1.username = w.username ∧
    (WClient.fetch_messages_size w es).2.1.password = w.password ∧
    (WClient.fetch_messages_size w es).2.1.use_tls = w.use_tls ∧
    (WClient.fetch_messages_size w es).2.1.ws_connected = w.ws_connected := by
  unfold WClient.fetch_messages_size
  repeat' (first | split | dsimp only)
  all_goals exact ⟨rfl, rfl, rfl, rfl, rfl⟩

/-- The WebSocket register_user never modifies the session. -/
theorem wrac_register_state (w : WClient) (ok : Bool) (es : List WEv) :
    (WClient.register_user w ok es).2.1 = w := by
  unfold WClient.register_user
  repeat' (first | split | dsimp only)

/-- The WebSocket send_custom_message never modifies the session. -/
theorem wrac_send_state (w : WClient) (m : String) (es : List WEv) :
    (WClient.send_custom_message w m es).2 = w := by
  unfold WClient.send_custom_message
  repeat' (first | split | dsimp only)

/-- The WebSocket fetch_all_messages never modifies the identity fields. -/
theorem wrac_fall_identity (w : WClient) (es : List WEv) :
    (WClient.fetch_all_messages w es).2.address = w.address ∧
    (WClient.fetch_all_messages w es).2.username = w.username ∧
    (WClient.fetch_all_messages w es).2.password = w.password ∧
    (WClient.fetch_all_messages w es).2.use_tls = w.use_tls ∧
    (WClient.fetch_all_messages w es).2.ws_connected = w.ws_connected := by
  have hid := wrac_fsize_identity w es
  unfold WClient.fetch_all_messages
  repeat' (first | split | dsimp only)
  all_goals simp_all

/-- The WebSocket fetch_new_messages never modifies the identity fields. -/
theorem wrac_fnew_identity (w : WClient) (es : List WEv) :
    (WClient.fetch_new_messages w es).2.1.address = w.address ∧
    (WClient.fetch_new_messages w es).2.1.username = w.username ∧
    (WClient.fetch_new_messages w es).2.1.password = w.password ∧
    (WClient.fetch_new_messages w es).2.1.use_tls = w.use_tls ∧
    (WClient.fetch_new_messages w es).2.1.ws_connected = w.ws_connected := by
  have hid := wrac_fsize_identity w es
  unfold WClient.fetch_new_messages
  repeat' (first | split | dsimp only)
  all_goals simp_all

/-- C1: the claim says null bytes are removed before UTF-8 decoding, integer
parsing and line splitting on every text read path of both variants, and in
particular that the size-response bytes 0x31 0x32 0x00 0x33 0x00 parse as
the size 123.  On the code this fails: the synchronous stream binding never
strips nulls, so these bytes fail the usize parse and the call returns the
parse error; the asynchronous binding strips the nulls from the whole
buffer but then still slices the original read length, which is out of
range, aborting the call; neither parses the size 123. -/
theorem c1_padded_size_not_parsed :
    (Client.fetch_messages_size cSample true [Ev.wOk, Ev.rOk [49, 50, 0, 51, 0]]).1
      = Outcome.err (ClientError.ParseError "Failed to parse messages size")
  ∧ (Client.fetch_messages_size cSample true [Ev.wOk, Ev.rOk [49, 50, 0, 51, 0]]).2
      = cSample
  ∧ (Async.fetch_messages_size cSample true [Ev.wOk, Ev.rOk [49, 50, 0, 51, 0]]).1
      = Outcome.crash := by decide

/-- C2 counterexample: the claim says a failing operation leaves session
state unchanged and that the cursor is never updated when a fetch returns
an error.  In fetch_all_messages the cursor is assigned right after the
size response parses, before the bulk read: with the size response "5" and
a failing bulk read, the call returns the stream read error yet the cursor
has moved from 0 to 5. -/
theorem c2_fetch_all_updates_cursor_before_failing_read :
    (Client.fetch_all_messages cSample true [Ev.wOk, Ev.rOk [53], Ev.wOk, Ev.reErr]).1
      = Outcome.err ClientError.StreamReadError
  ∧ (Client.fetch_all_messages cSample true
        [Ev.wOk, Ev.rOk [53], Ev.wOk, Ev.reErr]).2.current_messages_size = 5
  ∧ cSample.current_messages_size = 0 := by decide

/-- C2 amended: a failing operation never changes the identity fields
(address, username, password, TLS flag, stored-connection flag), and every
operation except the multi-step fetch_all (and, for the message variant,
fetch_all and fetch_delta, whose embedded size fetch already moved the
cursor) also leaves the cursor unchanged on failure; in fetch_all the
cursor is updated as soon as the size response parses, so a later failure
of the same call returns an error with the cursor already advanced. -/
theorem c2_amended_failure_state :
    (∀ c ok es e, (Client.fetch_messages_size c ok es).1 = Outcome.err e →
        (Client.fetch_messages_size c ok es).2 = c)
  ∧ (∀ c ok es, (Client.register_user c ok es).2.1 = c)
  ∧ (∀ c m ok es, (Client.send_custom_message c m ok es).2 = c)
  ∧ (∀ c ok es e, (Client.fetch_new_messages c ok es).1 = Outcome.err e →
        (Client.fetch_new_messages c ok es).2.1 = c)
  ∧ (∀ c ok es, (Client.fetch_all_messages c ok es).2.address = c.address
        ∧ (Client.fetch_all_messages c ok es).2.username = c.username
        ∧ (Client.fetch_all_messages c ok es).2.password = c.password
        ∧ (Client.fetch_all_messages c ok es).2.use_tls = c.use_tls)
  ∧ (∀ c ok es e, (Async.fetch_messages_size c ok es).1 = Outcome.err e →
        (Async.fetch_messages_size c ok es).2 = c)
  ∧ (∀ c ok es e, (Async.fetch_new_messages c ok es).1 = Outcome.err e →
        (Async.fetch_new_messages c ok es).2 = c)
  ∧ (∀ c ok es, (Async.fetch_all_messages c ok es).2.address = c.address
        ∧ (Async.fetch_all_messages c ok es).2.username = c.username
        ∧ (Async.fetch_all_messages c ok es).2.password = c.password
        ∧ (Async.fetch_all_messages c ok es).2.use_tls = c.use_tls)
  ∧ (∀ w es e, (WClient.fetch_messages_size w es).1 = Outcome.err e →
        (WClient.fetch_messages_size w es).2.1 = w)
  ∧ (∀ w ok es, (WClient.register_user w ok es).2.1 = w)
  ∧ (∀ w m es, (WClient.send_custom_message w m es).2 = w)
  ∧ (∀ w es, (WClient.fetch_all_messages w es).2.address = w.address
        ∧ (WClient.fetch_all_messages w es).2.username = w.username
        ∧ (WClient.fetch_all_messages w es).2.password = w.password
        ∧ (WClient.fetch_all_messages w es).2.use_tls = w.use_tls
        ∧ (WClient.fetch_all_messages w es).2.ws_connected = w.ws_connected)
  ∧ (∀ w es, (WClient.fetch_new_messages w es).2.1.address = w.address
        ∧ (WClient.fetch_new_messages w es).2.1.username = w.username
        ∧ (WClient.fetch_new_messages w es).2.1.password = w.password
        ∧ (WClient.fetch_new_messages w es).2.1.use_tls = w.use_tls
        ∧ (WClient.fetch_new_messages w es).2.1.ws_connected = w.ws_connected) := by
  refine ⟨?_, sync_register_state, sync_send_state, ?_, sync_fall_identity,
    ?_, ?_, async_fall_identity, ?_, wrac_register_state, wrac_send_state,
    wrac_fall_identity, wrac_fnew_identity⟩
  · intro c ok es e h
    rcases sync_fsize_state c ok es with h1 | h1
    · exact h1
    · rw [h] at h1; simp at h1
  · intro c ok es e h
    rcases sync_fnew_state c ok es with h1 | ⟨msgs, h1⟩
    · exact h1
    · rw [h] at h1; simp at h1
  · intro c ok es e h
    rcases async_fsize_state c ok es with h1 | h1
    · exact h1
    · rw [h] at h1; simp at h1
  · intro c ok es e h
    rcases async_fnew_state c ok es with h1 | ⟨msgs, h1⟩
    · exact h1
    · rw [h] at h1; simp at h1
  · intro w es e h
    rcases wrac_fsize_state w es with h1 | h1
    · exact h1
    · rw [h] at h1; simp at h1

/-- C2 amended witness: a concrete failing size fetch leaves the sample
session unchanged. -/
theorem c2_amended_failure_state_witness :
    (Client.fetch_messages_size cSample true [Ev.wOk, Ev.rErr]).2 = cSample :=
  c2_amended_failure_state.1 cSample true [Ev.wOk, Ev.rErr]
    ClientError.StreamReadError (by decide)

/-- C3 counterexample: the claim says a zero-length read of the size
response yields ServerClosedConnection in every size/fetch operation of the
stream variant.  In the synchronous binding there is no zero-read check:
the empty buffer fails the usize parse and the call returns a parse error,
not ServerClosedConnection. -/
theorem c3_sync_zero_read_is_parse_error :
    (Client.fetch_messages_size cSample true [Ev.wOk, Ev.rOk []]).1
      = Outcome.err (ClientError.ParseError "Failed to parse messages size")
  ∧ (Client.fetch_messages_size cSample true [Ev.wOk, Ev.rOk []]).1
      ≠ Outcome.err ClientError.ServerClosedConnection := by decide

/-- C3 amended: a zero-length read of the size response yields
ServerClosedConnection in the size/fetch operations of the asynchronous
stream binding only; in the synchronous binding the same situation is
reported as a parse error; in the status-reply paths (register and
authenticated send) a zero-length read is success-with-no-reply. -/
theorem c3_amended_zero_read_behavior :
    (∀ (c : Client) (es : List Ev),
        (Async.fetch_messages_size c true (Ev.wOk :: Ev.rOk [] :: es)).1
          = Outcome.err ClientError.ServerClosedConnection)
  ∧ (∀ (c : Client) (es : List Ev),
        (Async.fetch_all_messages c true (Ev.wOk :: Ev.rOk [] :: es)).1
          = Outcome.err ClientError.ServerClosedConnection)
  ∧ (∀ (c : Client) (es : List Ev),
        (Async.fetch_new_messages c true (Ev.wOk :: Ev.rOk [] :: es)).1
          = Outcome.err ClientError.ServerClosedConnection)
  ∧ (∀ (c : Client) (es : List Ev),
        (Client.fetch_messages_size c true (Ev.wOk :: Ev.rOk [] :: es)).1
          = Outcome.err (ClientError.ParseError "Failed to parse messages size"))
  ∧ (∀ (c : Client) (es : List Ev),
        (Client.fetch_all_messages c true (Ev.wOk :: Ev.rOk [] :: es)).1
          = Outcome.err (ClientError.ParseError "Failed to parse messages size"))
  ∧ (∀ (c : Client) (es : List Ev),
        (Client.fetch_new_messages c true (Ev.wOk :: Ev.rOk [] :: es)).1
          = Outcome.err (ClientError.ParseError "Failed to parse messages size"))
  ∧ (∀ (c : Client) (pw : String) (es : List Ev), c.password = some pw →
        (Client.register_user c true (Ev.wOk :: Ev.rOk [] :: es)).1 = Outcome.ok ())
  ∧ (∀ (c : Client) (pw m : String) (es : List Ev), c.password = some pw →
        (Client.send_custom_message c m true (Ev.wOk :: Ev.rOk [] :: es)).1
          = Outcome.ok ()) := by
  refine ⟨?_, ?_, ?_, ?_, ?_, ?_, ?_, ?_⟩
  · intro c es; rfl
  · intro c es; rfl
  · intro c es; rfl
  · intro c es; rfl
  · intro c es; rfl
  · intro c es; rfl
  · intro c pw es hpw
    simp [Client.register_user, stepW, stepR, hpw]
  · intro c pw m es hpw
    simp [Client.send_custom_message, stepW, stepR, hpw]

/-- C3 amended witness: a concrete register call with a password configured
treats a zero-length status read as success. -/
theorem c3_amended_zero_read_behavior_witness :
    (Client.register_user cSample true [Ev.wOk, Ev.rOk []]).1 = Outcome.ok () :=
  c3_amended_zero_read_behavior.2.2.2.2.2.2.1 cSample "p" [] (by decide)

/-- C4: in the stream-variant delta fetch, when the server reports a total
below the stored cursor, the delta buffer is sized by the unguarded usize
subtraction size - cursor, which underflows; there is no clamp and no
dedicated error, modelled by the crash outcome reached on exactly this
path. -/
theorem c4_delta_underflow_unguarded (c : Client) (head : List Nat) (t : Nat)
    (es : List Ev)
    (hparse : parseUsize (asciiOfBytes (head.take 1024)) = some t)
    (hlt : t < c.current_messages_size) :
    (Client.fetch_new_messages c true (Ev.wOk :: Ev.rOk head :: Ev.wOk :: es)).1
      = Outcome.crash := by
  simp [Client.fetch_new_messages, stepW, stepR, hparse, hlt]

/-- C4 witness: cursor 5, server now reports total 3; the delta fetch hits
the unguarded subtraction. -/
theorem c4_delta_underflow_unguarded_witness :
    parseUsize (asciiOfBytes (List.take 1024 [51])) = some 3
  ∧ 3 < ({ cSample with current_messages_size := 5 } : Client).current_messages_size
  ∧ (Client.fetch_new_messages { cSample with current_messages_size := 5 } true
        [Ev.wOk, Ev.rOk [51], Ev.wOk]).1 = Outcome.crash :=
  ⟨by decide, by decide,
    c4_delta_underflow_unguarded { cSample with current_messages_size := 5 } [51] 3 []
      (by decide) (by decide)⟩

/-- Case analysis of the sync fetch_new_messages: every run either fails
with the session unchanged, aborts on the unguarded subtraction with the
session unchanged, or succeeds, in which case the transport trace begins
with connect, the 0x00 size request, the 1024-byte size read, and the delta
request 0x02 followed by the PREVIOUS cursor in decimal, and the cursor has
not decreased. -/
theorem sync_fnew_cases (c : Client) (es : List Ev) :
    ((∃ e, (Client.fetch_new_messages c true es).1 = Outcome.err e)
      ∧ (Client.fetch_new_messages c true es).2.1 = c)
  ∨ ((Client.fetch_new_messages c true es).1 = Outcome.crash
      ∧ (Client.fetch_new_messages c true es).2.1 = c)
  ∨ ((∃ msgs, (Client.fetch_new_messages c true es).1 = Outcome.ok msgs)
      ∧ List.take 4 (Client.fetch_new_messages c true es).2.2
          = [Call.connect, Call.write [0], Call.read 1024,
             Call.write (asciiBytes ("\x02" ++ toString c.current_messages_size))]
      ∧ c.current_messages_size
          ≤ (Client.fetch_new_messages c true es).2.1.current_messages_size) := by
  unfold Client.fetch_new_messages
  repeat' (first | split | dsimp only)
  all_goals first
    | exact Or.inl ⟨⟨_, rfl⟩, rfl⟩
    | exact Or.inr (Or.inl ⟨rfl, rfl⟩)
    | (refine Or.inr (Or.inr ⟨⟨_, rfl⟩, rfl, ?_⟩); omega)

/-- C5 counterexample: the claim says both variants send the single opcode
byte 0x02 followed by the previous cursor in decimal and update the cursor
only after the delta bytes are read.  In the message variant, with stored
cursor 1 and the server now reporting 5, the delta request actually sent is
the bytes 0x00 0x02 followed by "5" (the NEW total, with a leading 0x00),
and although the delta read fails the cursor has already moved to 5. -/
theorem c5_wrac_delta_frame_counterexample :
    (WClient.fetch_new_messages wSample
        [WEv.sendOk, WEv.recvText "5", WEv.sendOk, WEv.recvErr "closed"]).2.2
      = [Call.wsSend [0], Call.wsRecv, Call.wsSend [0, 2, 53], Call.wsRecv]
  ∧ ([0, 2, 53] : List Nat) ≠ 2 :: asciiBytes (toString wSample.current_messages_size)
  ∧ (WClient.fetch_new_messages wSample
        [WEv.sendOk, WEv.recvText "5", WEv.sendOk, WEv.recvErr "closed"]).1
      = Outcome.err (ClientError.WsReadError "closed")
  ∧ (WClient.fetch_new_messages wSample
        [WEv.sendOk, WEv.recvText "5", WEv.sendOk,
         WEv.recvErr "closed"]).2.1.current_messages_size = 5
  ∧ wSample.current_messages_size = 1 := by decide

/-- C5 amended: in the stream variant the delta request frame is the single
opcode byte 0x02 followed by the previous (pre-fetch) cursor in ASCII
decimal, and the cursor is updated (never decreased) only when the call
succeeds, after the delta bytes are read; in the message variant the frame
is 0x00 0x02 followed by the newly learned total, and the cursor is already
set to that total by the embedded size fetch before the delta exchange,
even when the delta read then fails. -/
theorem c5_amended_delta_frame :
    (∀ (c : Client) (es : List Ev) (msgs : List String),
        (Client.fetch_new_messages c true es).1 = Outcome.ok msgs →
        List.take 4 (Client.fetch_new_messages c true es).2.2
          = [Call.connect, Call.write [0], Call.read 1024,
             Call.write (asciiBytes ("\x02" ++ toString c.current_messages_size))]
        ∧ c.current_messages_size
            ≤ (Client.fetch_new_messages c true es).2.1.current_messages_size)
  ∧ (∀ (c : Client) (es : List Ev) (e : ClientError),
        (Client.fetch_new_messages c true es).1 = Outcome.err e →
        (Client.fetch_new_messages c true es).2.1 = c)
  ∧ (∀ (w : WClient) (txt : String) (t : Nat) (m : String) (es : List WEv),
        w.ws_connected = true →
        parseUsize (rustTrim txt) = some t →
        w.current_messages_size < t →
        (WClient.fetch_new_messages w
            (WEv.sendOk :: WEv.recvText txt :: WEv.sendOk :: WEv.recvErr m :: es)).1
          = Outcome.err (ClientError.WsReadError m)
        ∧ (WClient.fetch_new_messages w
            (WEv.sendOk :: WEv.recvText txt :: WEv.sendOk :: WEv.recvErr m :: es)).2.1.current_messages_size
          = t
        ∧ (WClient.fetch_new_messages w
            (WEv.sendOk :: WEv.recvText txt :: WEv.sendOk :: WEv.recvErr m :: es)).2.2
          = [Call.wsSend [0], Call.wsRecv,
             Call.wsSend (asciiBytes ("\x00\x02" ++ toString t)), Call.wsRecv]) := by
  refine ⟨?_, ?_, ?_⟩
  · intro c es msgs h
    rcases sync_fnew_cases c es with ⟨⟨e, h1⟩, _⟩ | ⟨h1, _⟩ | ⟨_, h2, h3⟩
    · rw [h] at h1; simp at h1
    · rw [h] at h1; simp at h1
    · exact ⟨h2, h3⟩
  · intro c es e h
    rcases sync_fnew_cases c es with ⟨_, h1⟩ | ⟨h1, _⟩ | ⟨⟨msgs, h1⟩, _⟩
    · exact h1
    · rw [h] at h1; simp at h1
    · rw [h] at h1; simp at h1
  · intro w txt t m es hconn hparse hlt
    have hge : ¬ (w.current_messages_size ≥ t) := not_le.mpr hlt
    simp [WClient.fetch_new_messages, WClient.fetch_messages_size, stepSend,
      stepRecv, wrecvText, hconn, hparse, hge]

/-- C5 amended witness: the concrete divergent run of the message variant,
through the amended statement. -/
theorem c5_amended_delta_frame_witness :
    (WClient.fetch_new_messages wSample
        [WEv.sendOk, WEv.recvText "5", WEv.sendOk, WEv.recvErr "gone"]).1
      = Outcome.err (ClientError.WsReadError "gone")
  ∧ (WClient.fetch_new_messages wSample
        [WEv.sendOk, WEv.recvText "5", WEv.sendOk,
         WEv.recvErr "gone"]).2.1.current_messages_size = 5
  ∧ (WClient.fetch_new_messages wSample
        [WEv.sendOk, WEv.recvText "5", WEv.sendOk, WEv.recvErr "gone"]).2.2
      = [Call.wsSend [0], Call.wsRecv,
         Call.wsSend (asciiBytes ("\x00\x02" ++ toString (5 : Nat))), Call.wsRecv] :=
  c5_amended_delta_frame.2.2 wSample "5" 5 "gone" []
    (by decide) (by decide) (by decide)

/-- C6 counterexample: the claim says registering without a password fails
with NoPassword having issued zero transport calls.  The code obtains the
transport first: with no password configured the call does return
NoPassword, but the trace already holds the connect call; and when the
connect fails the call reports the connection failure, not NoPassword. -/
theorem c6_register_connects_before_password_check :
    (Client.register_user { cSample with password := none } true []).1
      = Outcome.err ClientError.NoPassword
  ∧ (Client.register_user { cSample with password := none } true []).2.2
      = [Call.connect]
  ∧ (Client.register_user { cSample with password := none } true []).2.2
      ≠ ([] : List Call)
  ∧ (Client.register_user { cSample with password := none } false []).1
      = Outcome.err ClientError.ConnectionError := by decide

/-- C6 amended: registering without a configured password fails with
NoPassword, but only after one transport connect has been attempted (the
trace holds exactly the connect call and nothing is written); when the
connect itself fails, the connect error is reported instead of NoPassword.
The same holds in the message variant, where a handshake failure surfaces
as the TLS-initialization error. -/
theorem c6_amended_register_no_password :
    (∀ (c : Client) (es : List Ev), c.password = none →
        (Client.register_user c true es).1 = Outcome.err ClientError.NoPassword
        ∧ (Client.register_user c true es).2.2 = [Call.connect])
  ∧ (∀ (c : Client) (es : List Ev),
        (Client.register_user c false es).1 = Outcome.err ClientError.ConnectionError)
  ∧ (∀ (w : WClient) (es : List WEv), w.password = none →
        (WClient.register_user w true es).1 = Outcome.err ClientError.NoPassword
        ∧ (WClient.register_user w true es).2.2 = [Call.connect])
  ∧ (∀ (w : WClient) (es : List WEv),
        (WClient.register_user w false es).1
          = Outcome.err ClientError.TlsInitializationError) := by
  refine ⟨?_, ?_, ?_, ?_⟩
  · intro c es hp
    simp [Client.register_user, hp]
  · intro c es
    simp [Client.register_user]
  · intro w es hp
    simp [WClient.register_user, hp]
  · intro w es
    simp [WClient.register_user]

/-- C6 amended witness: the concrete no-password register run, through the
amended statement. -/
theorem c6_amended_register_no_password_witness :
    (Client.register_user { cSample with password := none } true [Ev.wOk]).1
      = Outcome.err ClientError.NoPassword
  ∧ (Client.register_user { cSample with password := none } true [Ev.wOk]).2.2
      = [Call.connect] :=
  c6_amended_register_no_password.1 { cSample with password := none } [Ev.wOk]
    (by decide)

/-- C7 counterexample: the claim says every message-variant operation other
than prepare fails with NoConnectionWRAC when no connection is stored.
register_user is an exception: with no stored connection it opens its own
fresh WebSocket and performs the full exchange, returning success here
(the status read failed, which this path swallows), never
NoConnectionWRAC. -/
theorem c7_wrac_register_skips_connection_check :
    (WClient.register_user { wSample with ws_connected := false } true
        [WEv.sendOk, WEv.recvErr "x"]).1 = Outcome.ok ()
  ∧ (WClient.register_user { wSample with ws_connected := false } true
        [WEv.sendOk, WEv.recvErr "x"]).1 ≠ Outcome.err ClientError.NoConnectionWRAC
  ∧ (WClient.register_user { wSample with ws_connected := false } true
        [WEv.sendOk, WEv.recvErr "x"]).2.2
      = [Call.connect, Call.wsSend [3, 117, 10, 112], Call.wsRecv] := by decide

/-- C7 amended: in the message variant every operation that uses the stored
connection (fetch_messages_size, fetch_all_messages, fetch_new_messages,
send_custom_message) fails with NoConnectionWRAC, performing no exchange,
when no connection is stored; register_user is the exception: it opens its
own fresh connection and proceeds regardless of the stored handle. -/
theorem c7_amended_connection_check :
    (∀ (w : WClient) (es : List WEv), w.ws_connected = false →
        (WClient.fetch_messages_size w es).1 = Outcome.err ClientError.NoConnectionWRAC
        ∧ (WClient.fetch_messages_size w es).2.2.2 = [])
  ∧ (∀ (w : WClient) (es : List WEv), w.ws_connected = false →
        (WClient.fetch_all_messages w es).1 = Outcome.err ClientError.NoConnectionWRAC)
  ∧ (∀ (w : WClient) (es : List WEv), w.ws_connected = false →
        (WClient.fetch_new_messages w es).1 = Outcome.err ClientError.NoConnectionWRAC)
  ∧ (∀ (w : WClient) (m : String) (es : List WEv), w.ws_connected = false →
        (WClient.send_custom_message w m es).1 = Outcome.err ClientError.NoConnectionWRAC)
  ∧ (∀ (w : WClient) (pw m : String) (es : List WEv), w.ws_connected = false →
        w.password = some pw →
        (WClient.register_user w true (WEv.sendOk :: WEv.recvErr m :: es)).1
          = Outcome.ok ()) := by
  refine ⟨?_, ?_, ?_, ?_, ?_⟩
  · intro w es hconn
    simp [WClient.fetch_messages_size, hconn]
  · intro w es hconn
    simp [WClient.fetch_all_messages, WClient.fetch_messages_size, hconn]
  · intro w es hconn
    simp [WClient.fetch_new_messages, WClient.fetch_messages_size, hconn]
  · intro w m es hconn
    simp [WClient.send_custom_message, hconn]
  · intro w pw m es hconn hpw
    simp [WClient.register_user, stepSend, stepRecv, hpw]

/-- C7 amended witness: a concrete disconnected size fetch fails with
NoConnectionWRAC and performs no exchange. -/
theorem c7_amended_connection_check_witness :
    (WClient.fetch_messages_size { wSample with ws_connected := false }
        [WEv.sendOk]).1 = Outcome.err ClientError.NoConnectionWRAC
  ∧ (WClient.fetch_messages_size { wSample with ws_connected := false }
        [WEv.sendOk]).2.2.2 = [] :=
  c7_amended_connection_check.1 { wSample with ws_connected := false }
    [WEv.sendOk] (by decide)

/-- C8 counterexample: the claim says the cursor is monotonically
non-decreasing and updated only after a successful full or delta fetch.
A successful size fetch alone already rewrites the cursor, and to whatever
the server reports: with stored cursor 5 and size response "3" the cursor
drops from 5 to 3. -/
theorem c8_cursor_can_decrease :
    (Client.fetch_messages_size { cSample with current_messages_size := 5 } true
        [Ev.wOk, Ev.rOk [51]]).1 = Outcome.ok ()
  ∧ (Client.fetch_messages_size { cSample with current_messages_size := 5 } true
        [Ev.wOk, Ev.rOk [51]]).2.current_messages_size = 3
  ∧ (3 : Nat) < 5 := by decide

/-- C8 amended: the cursor starts at 0 and is returned to 0 by reset;
register and send never touch it; but it is overwritten by every successful
parse of a size response — in particular a bare fetch_messages_size sets it
to exactly the server-reported value, which may be below the stored cursor,
so the cursor is not monotone. -/
theorem c8_amended_cursor_dynamics :
    (∀ (a : String) (cred : Credentials) (t : Bool),
        (Client.new a cred t).current_messages_size = 0)
  ∧ (∀ c : Client, (Client.reset c).current_messages_size = 0)
  ∧ (∀ (c : Client) (ok : Bool) (es : List Ev),
        (Client.register_user c ok es).2.1.current_messages_size
          = c.current_messages_size)
  ∧ (∀ (c : Client) (m : String) (ok : Bool) (es : List Ev),
        (Client.send_custom_message c m ok es).2.current_messages_size
          = c.current_messages_size)
  ∧ (∀ (c : Client) (head : List Nat) (t : Nat) (es : List Ev),
        parseUsize (asciiOfBytes (List.take 1024 head)) = some t →
        (Client.fetch_messages_size c true (Ev.wOk :: Ev.rOk head :: es)).1
          = Outcome.ok ()
        ∧ (Client.fetch_messages_size c true
            (Ev.wOk :: Ev.rOk head :: es)).2.current_messages_size = t) := by
  refine ⟨fun a cred t => rfl, fun c => rfl, ?_, ?_, ?_⟩
  · intro c ok es
    rw [sync_register_state]
  · intro c m ok es
    rw [sync_send_state]
  · intro c head t es hparse
    simp [Client.fetch_messages_size, stepW, stepR, hparse]

/-- C8 amended witness: the concrete decreasing size fetch, through the
amended statement. -/
theorem c8_amended_cursor_dynamics_witness :
    (Client.fetch_messages_size { cSample with current_messages_size := 5 } true
        [Ev.wOk, Ev.rOk [51], Ev.wOk]).1 = Outcome.ok ()
  ∧ (Client.fetch_messages_size { cSample with current_messages_size := 5 } true
        [Ev.wOk, Ev.rOk [51], Ev.wOk]).2.current_messages_size = 3 :=
  c8_amended_cursor_dynamics.2.2.2.2 { cSample with current_messages_size := 5 }
    [51] 3 [Ev.wOk] (by decide)

/-- C9: in the stream variant, after a successful fetch_all the cursor holds
the server-reported total; an immediately following fetch_new whose size
response parses to that same total (no new server activity) sends the delta
request, reads a zero-byte delta (read_exact of an empty buffer always
succeeds), returns the empty message list, and leaves the whole session —
in particular the cursor — unchanged. -/
theorem c9_fetch_all_then_delta_empty (c : Client) (es1 : List Ev)
    (head2 : List Nat) (rest : List Ev) (msgs : List String)
    (_h1 : (Client.fetch_all_messages c true es1).1 = Outcome.ok msgs)
    (h2 : parseUsize (asciiOfBytes (List.take 1024 head2))
        = some ((Client.fetch_all_messages c true es1).2.current_messages_size)) :
    (Client.fetch_new_messages (Client.fetch_all_messages c true es1).2 true
        (Ev.wOk :: Ev.rOk head2 :: Ev.wOk :: rest)).1 = Outcome.ok []
  ∧ (Client.fetch_new_messages (Client.fetch_all_messages c true es1).2 true
        (Ev.wOk :: Ev.rOk head2 :: Ev.wOk :: rest)).2.1
      = (Client.fetch_all_messages c true es1).2 := by
  generalize (Client.fetch_all_messages c true es1).2 = c1 at h2 ⊢
  have h2' : parseUsize (String.mk (List.take 1024 (List.map Char.ofNat head2)))
      = some c1.current_messages_size := by
    simpa [asciiOfBytes, List.map_take] using h2
  simp [Client.fetch_new_messages, stepW, stepR, stepRE, h2',
    linesNonEmpty, splitNl, chopCR, asciiOfBytes]

/-- C9 witness: a concrete successful fetch_all (size "3", blob "a" newline
"b") followed by a delta fetch that sees the same total returns the empty
list and keeps the cursor at 3. -/
theorem c9_fetch_all_then_delta_empty_witness :
    (Client.fetch_new_messages
        (Client.fetch_all_messages cSample true
          [Ev.wOk, Ev.rOk [51], Ev.wOk, Ev.reOk [97, 10, 98]]).2 true
        [Ev.wOk, Ev.rOk [51], Ev.wOk]).1 = Outcome.ok []
  ∧ (Client.fetch_new_messages
        (Client.fetch_all_messages cSample true
          [Ev.wOk, Ev.rOk [51], Ev.wOk, Ev.reOk [97, 10, 98]]).2 true
        [Ev.wOk, Ev.rOk [51], Ev.wOk]).2.1
      = (Client.fetch_all_messages cSample true
          [Ev.wOk, Ev.rOk [51], Ev.wOk, Ev.reOk [97, 10, 98]]).2 :=
  c9_fetch_all_then_delta_empty cSample
    [Ev.wOk, Ev.rOk [51], Ev.wOk, Ev.reOk [97, 10, 98]] [51] [] ["a", "b"]
    (by decide) (by decide)

/-- C10: in the message variant's register and authenticated send, only a
successfully received binary status message is inspected; when the status
read returns an error or a non-binary (text or other) message, both paths
return success and the read failure is never reported to the caller. -/
theorem c10_ws_status_read_failure_swallowed :
    (∀ (w : WClient) (pw m : String) (es : List WEv), w.password = some pw →
        (WClient.register_user w true (WEv.sendOk :: WEv.recvErr m :: es)).1
          = Outcome.ok ())
  ∧ (∀ (w : WClient) (pw t : String) (es : List WEv), w.password = some pw →
        (WClient.register_user w true (WEv.sendOk :: WEv.recvText t :: es)).1
          = Outcome.ok ())
  ∧ (∀ (w : WClient) (pw : String) (es : List WEv), w.password = some pw →
        (WClient.register_user w true (WEv.sendOk :: WEv.recvOther :: es)).1
          = Outcome.ok ())
  ∧ (∀ (w : WClient) (pw msg m : String) (es : List WEv),
        w.ws_connected = true → w.password = some pw →
        (WClient.send_custom_message w msg (WEv.sendOk :: WEv.recvErr m :: es)).1
          = Outcome.ok ())
  ∧ (∀ (w : WClient) (pw msg t : String) (es : List WEv),
        w.ws_connected = true → w.password = some pw →
        (WClient.send_custom_message w msg (WEv.sendOk :: WEv.recvText t :: es)).1
          = Outcome.ok ())
  ∧ (∀ (w : WClient) (pw msg : String) (es : List WEv),
        w.ws_connected = true → w.password = some pw →
        (WClient.send_custom_message w msg (WEv.sendOk :: WEv.recvOther :: es)).1
          = Outcome.ok ()) := by
  refine ⟨?_, ?_, ?_, ?_, ?_, ?_⟩
  · intro w pw m es hpw
    simp [WClient.register_user, stepSend, stepRecv, hpw]
  · intro w pw t es hpw
    simp [WClient.register_user, stepSend, stepRecv, hpw]
  · intro w pw es hpw
    simp [WClient.register_user, stepSend, stepRecv, hpw]
  · intro w pw msg m es hconn hpw
    simp [WClient.send_custom_message, stepSend, stepRecv, hconn, hpw]
  · intro w pw msg t es hconn hpw
    simp [WClient.send_custom_message, stepSend, stepRecv, hconn, hpw]
  · intro w pw msg es hconn hpw
    simp [WClient.send_custom_message, stepSend, stepRecv, hconn, hpw]

/-- C10 witness: a concrete authenticated send whose status read fails is
reported as success. -/
theorem c10_ws_status_read_failure_swallowed_witness :
    (WClient.send_custom_message wSample "hello"
        [WEv.sendOk, WEv.recvErr "reset"]).1 = Outcome.ok () :=
  c10_ws_status_read_failure_swallowed.2.2.2.1 wSample "p" "hello" "reset" []
    (by decide) (by decide)
